import Mathlib

/-!
Shallow embedding of the status-normalization and metadata-inference engine of
the OBS-Print-Progress overlay (source: src/print-progress-new.js).

Modelling conventions:
* JSON numbers are modelled as exact rationals (`ℚ`).  All telemetry and
  metadata values reach the engine through `response.json()`, and JSON cannot
  encode NaN or Infinity, so every numeric field is number-or-absent; explicit
  JSON `null` fields are modelled like absent fields (both are nullish for
  `??`).  Optional numeric fields are `Option ℚ`, with `none` for
  null/undefined.
* JavaScript truthiness on such a field: `none` and `some 0` are falsy.
* `Math.floor`/`Math.round` become `Int.floor` on `ℚ` (`Math.round x` is
  `⌊x + 1/2⌋`); the IEEE-754 rounding of intermediate results is idealised to
  exact rational arithmetic.
* Strings are modelled as `String`/`List Char`; the regular expressions of the
  source are implemented as explicit character-level matchers with the same
  leftmost-match, ordered-alternative semantics.
* Network effects are passed in as explicit inputs: the consolidated telemetry
  fetch is an `Except Unit Telemetry` argument, the metadata lookup is an
  oracle `String → Option (SlicerMeta × String) × Nat` whose second component
  counts the network calls it performs, the thumbnail fetch is an oracle
  `String → Option String`, and the chamber reading is an `Option TempReading`
  input.  DOM writes become fields of a `UIState` record.
-/

/-- JavaScript nullish coalescing `a ?? b` on modelled optional numbers. -/
def jsNC (a b : Option ℚ) : Option ℚ :=
  match a with
  | some v => some v
  | none => b

/-- JavaScript truthiness of a modelled numeric field: null/undefined and 0 are falsy. -/
def otruthy (v : Option ℚ) : Bool :=
  match v with
  | some q => decide (q ≠ 0)
  | none => false

/-- JavaScript falsiness `!v` of a modelled numeric field. -/
def ofalsy (v : Option ℚ) : Bool := !otruthy v

/-- JavaScript `a || b` on modelled optional numbers. -/
def jsOr (a b : Option ℚ) : Option ℚ :=
  if otruthy a then a else b

/-- JavaScript `a || d` where the result is consumed as a number. -/
def qOr (a : Option ℚ) (d : ℚ) : ℚ :=
  match a with
  | some q => if q = 0 then d else q
  | none => d

/-- JavaScript `s || d` on strings (empty string is falsy). -/
def strOr (s : Option String) (d : String) : String :=
  match s with
  | some v => if v = "" then d else v
  | none => d

/-- JavaScript `!s` for an optional string argument. -/
def strFalsy (s : Option String) : Prop :=
  s = none ∨ s = some ""

instance (s : Option String) : Decidable (strFalsy s) := by
  unfold strFalsy; infer_instance

/-- `Math.round` (half toward +∞) on an exact rational. -/
def jsRound (q : ℚ) : ℤ := ⌊q + 1/2⌋

/-- JavaScript `%` restricted to the nonnegative operands the code feeds it. -/
def qmod (a b : ℚ) : ℚ := a - b * ⌊a / b⌋

/-- `asNumber` of the source: `Number(value)` gated by `Number.isFinite`.  On the
modelled space (JSON numbers or nullish) the coercion keeps a number and maps
nullish to null. -/
def asNumber (value : Option ℚ) : Option ℚ :=
  match value with
  | some q => some q
  | none => none

/-- JavaScript whitespace class `\s` (ASCII part). -/
def wsChar (c : Char) : Bool :=
  c == ' ' || c == '\t' || c == '\n' || c == '\r' || c.toNat == 11 || c.toNat == 12

/-- Character class `[:=\s]` used by the header regexes. -/
def sepCW (c : Char) : Bool := c == ':' || c == '=' || wsChar c

/-- Greedy `\s*`. -/
def skipWs : List Char → List Char
  | [] => []
  | c :: r => if wsChar c then skipWs r else c :: r

/-- Greedy `[\d]+` (possibly empty): the matched run and the rest. -/
def takeDigits : List Char → List Char × List Char
  | [] => ([], [])
  | c :: r =>
    if c.isDigit then
      let p := takeDigits r
      (c :: p.1, p.2)
    else ([], c :: r)

/-- Greedy `[\d.]+` (possibly empty): the matched run and the rest. -/
def takeNumDot : List Char → List Char × List Char
  | [] => ([], [])
  | c :: r =>
    if c.isDigit || c == '.' then
      let p := takeNumDot r
      (c :: p.1, p.2)
    else ([], c :: r)

/-- Value of a digit string. -/
def digitsToNat (l : List Char) : ℕ :=
  l.foldl (fun a c => a * 10 + (c.toNat - 48)) 0

/-- `Number()` of a nonempty `[\d.]+` token: at most one dot and at least one
digit, else NaN (null after the `isFinite` gate). -/
def jsDecimal (l : List Char) : Option ℚ :=
  let p := l.span Char.isDigit
  match p.2 with
  | [] => if p.1 = [] then none else some (digitsToNat p.1)
  | '.' :: frac =>
    if frac.all Char.isDigit then
      if p.1 = [] ∧ frac = [] then none
      else some ((digitsToNat p.1 : ℚ) + (digitsToNat frac : ℚ) / ((10 : ℚ) ^ frac.length))
    else none
  | _ => none

/-- Match a literal (case-sensitive) at the head, returning the rest. -/
def dropLit : List Char → List Char → Option (List Char)
  | [], l => some l
  | _ :: _, [] => none
  | p :: ps, c :: cs => if p == c then dropLit ps cs else none

/-- Match a lowercase literal case-insensitively at the head. -/
def dropLitCI : List Char → List Char → Option (List Char)
  | [], l => some l
  | _ :: _, [] => none
  | p :: ps, c :: cs => if p == c.toLower then dropLitCI ps cs else none

/-- Optional `[_ ]?` (greedy; sound because the following literal never starts
with an underscore or space). -/
def optSepU (l : List Char) : List Char :=
  match l with
  | c :: r => if c == '_' || c == ' ' then r else l
  | [] => []

/-- Tail `[:=\s]\s*([\d.]+)` with `Number` conversion of the capture. -/
def sepNumQ (l : List Char) : Option ℚ :=
  match l with
  | c :: r =>
    if sepCW c then
      let tok := (takeNumDot (skipWs r)).1
      if tok = [] then none else jsDecimal tok
    else none
  | [] => none

/-- Tail `[:=\s]\s*([\d]+)`. -/
def sepNumN (l : List Char) : Option ℚ :=
  match l with
  | c :: r =>
    if sepCW c then
      let tok := (takeDigits (skipWs r)).1
      if tok = [] then none else some (digitsToNat tok)
    else none
  | [] => none

/-- Leftmost-match scan: try the head matcher at every position. -/
def scanFirst (f : List Char → Option α) : List Char → Option α
  | [] => f []
  | l@(_ :: r) =>
    match f l with
    | some v => some v
    | none => scanFirst f r

/-- `layer[_ ]?height[:=\s]\s*([\d.]+)` at the current position. -/
def lhAt1 (l : List Char) : Option ℚ :=
  (dropLit "layer".toList l).bind fun r =>
    (dropLit "height".toList (optSepU r)).bind sepNumQ

/-- `;\s*layer_height\s*=\s*([\d.]+)` at the current position. -/
def lhAt2 (l : List Char) : Option ℚ :=
  match l with
  | ';' :: r =>
    (dropLit "layer_height".toList (skipWs r)).bind fun r2 =>
      match skipWs r2 with
      | '=' :: r3 =>
        let tok := (takeNumDot (skipWs r3)).1
        if tok = [] then none else jsDecimal tok
      | _ => none
  | _ => none

/-- `first[_ ]?layer[_ ]?height[:=\s]\s*([\d.]+)` at the current position. -/
def flhAt1 (l : List Char) : Option ℚ :=
  (dropLit "first".toList l).bind fun r =>
    (dropLit "layer".toList (optSepU r)).bind fun r2 =>
      (dropLit "height".toList (optSepU r2)).bind sepNumQ

/-- `initial[_ ]?layer[_ ]?height[:=\s]\s*([\d.]+)` at the current position. -/
def flhAt2 (l : List Char) : Option ℚ :=
  (dropLit "initial".toList l).bind fun r =>
    (dropLit "layer".toList (optSepU r)).bind fun r2 =>
      (dropLit "height".toList (optSepU r2)).bind sepNumQ

/-- `layer[_ ]?(?:count|total|totals?)[:=\s]\s*([\d]+)` at the current position;
the alternatives are tried in source order, the `totals?` case reducing to
"after `total`, an optional `s`" (the plain-`total` case is already covered by
the second alternative). -/
def lcAt1 (l : List Char) : Option ℚ :=
  (dropLit "layer".toList l).bind fun r0 =>
    let r := optSepU r0
    match (dropLit "count".toList r).bind sepNumN with
    | some v => some v
    | none =>
      match (dropLit "total".toList r).bind sepNumN with
      | some v => some v
      | none =>
        (dropLit "total".toList r).bind fun r2 =>
          match r2 with
          | 's' :: r3 => sepNumN r3
          | _ => none

/-- `total[_ ]?layers?[:=\s]\s*([\d]+)` at the current position (an optional
`s` before the separator; a digit or separator cannot be `s`, so greedy is
exact). -/
def lcAt2 (l : List Char) : Option ℚ :=
  (dropLit "total".toList l).bind fun r0 =>
    (dropLit "layer".toList (optSepU r0)).bind fun r =>
      match r with
      | 's' :: r2 => sepNumN r2
      | _ => sepNumN r

/-- `;\s*total_layer_count\s*=\s*([\d]+)` at the current position. -/
def lcAt3 (l : List Char) : Option ℚ :=
  match l with
  | ';' :: r =>
    (dropLit "total_layer_count".toList (skipWs r)).bind fun r2 =>
      match skipWs r2 with
      | '=' :: r3 =>
        let tok := (takeDigits (skipWs r3)).1
        if tok = [] then none else some ((digitsToNat tok : ℚ))
      | _ => none
  | _ => none

/-- `(?:estimated[_ ]?time|estimated[_ ]?print[_ ]?time|print[_ ]?time)[:=\s]\s*([\d.]+)`
at the current position, alternatives in source order. -/
def etAt1 (l : List Char) : Option ℚ :=
  let a1 := (dropLit "estimated".toList l).bind fun r =>
    (dropLit "time".toList (optSepU r)).bind sepNumQ
  match a1 with
  | some v => some v
  | none =>
    let a2 := (dropLit "estimated".toList l).bind fun r =>
      (dropLit "print".toList (optSepU r)).bind fun r2 =>
        (dropLit "time".toList (optSepU r2)).bind sepNumQ
    match a2 with
    | some v => some v
    | none =>
      (dropLit "print".toList l).bind fun r =>
        (dropLit "time".toList (optSepU r)).bind sepNumQ

/-- `;time[:=\s]\s*([\d.]+)` at the current position. -/
def etAt2 (l : List Char) : Option ℚ :=
  match l with
  | ';' :: r => (dropLit "time".toList r).bind sepNumQ
  | _ => none

/-- `;\s*estimated_printing_time\(normal\)\s*=\s*([\d.]+)` at the current position. -/
def etAt3 (l : List Char) : Option ℚ :=
  match l with
  | ';' :: r =>
    (dropLit "estimated_printing_time(normal)".toList (skipWs r)).bind fun r2 =>
      match skipWs r2 with
      | '=' :: r3 =>
        let tok := (takeNumDot (skipWs r3)).1
        if tok = [] then none else jsDecimal tok
      | _ => none
  | _ => none

/-- `(?:maxz|max_z|height|object[_ ]?height)[:=\s]\s*([\d.]+)` at the current
position, alternatives in source order. -/
def ohAt (l : List Char) : Option ℚ :=
  match (dropLit "maxz".toList l).bind sepNumQ with
  | some v => some v
  | none =>
    match (dropLit "max_z".toList l).bind sepNumQ with
    | some v => some v
    | none =>
      match (dropLit "height".toList l).bind sepNumQ with
      | some v => some v
      | none =>
        (dropLit "object".toList l).bind fun r =>
          (dropLit "height".toList (optSepU r)).bind sepNumQ

/-- Lazy `.*?(0\.\d+)` of the secondary height scan: `.` does not cross a
newline; at each step first try the capture, else consume one non-newline
character. -/
def lazyFindZeroDot : List Char → Option ℚ
  | [] => none
  | '0' :: '.' :: r =>
    let ds := (takeDigits r).1
    if ds = [] then lazyFindZeroDot ('.' :: r)
    else some ((digitsToNat ds : ℚ) / ((10 : ℚ) ^ ds.length))
  | '\n' :: _ => none
  | _ :: r => lazyFindZeroDot r

/-- `;\s*(?:layer[_ ]?height|Layer height).*?(0\.\d+)` (case-insensitive) at
the current position; the second alternative is an instance of the first. -/
def secondaryLHAt (l : List Char) : Option ℚ :=
  match l with
  | ';' :: r =>
    (dropLitCI "layer".toList (skipWs r)).bind fun r2 =>
      (dropLitCI "height".toList (optSepU r2)).bind lazyFindZeroDot
  | _ => none

/-- Character class `[_\s\.]` of the filename layer-height pattern. -/
def sepClassLH (c : Char) : Bool := c == '_' || wsChar c || c == '.'

/-- `[_\s\.]0\.(\d+)(?:[_\s\.]|mm|$)` (case-insensitive) at the current
position, returning `Number("0." + capture)`. -/
def lhTokenAt : List Char → Option ℚ
  | c :: '0' :: '.' :: r =>
    if sepClassLH c then
      let p := takeDigits r
      if p.1 = [] then none
      else
        let ok :=
          match p.2 with
          | [] => true
          | x :: xs =>
            sepClassLH x ||
              (x.toLower == 'm' &&
                (match xs with
                 | y :: _ => y.toLower == 'm'
                 | [] => false))
        if ok then some ((digitsToNat p.1 : ℚ) / ((10 : ℚ) ^ p.1.length)) else none
    else none
  | _ => none

/-- First match of the filename layer-height pattern. -/
def matchLayerHeightToken (l : List Char) : Option ℚ :=
  scanFirst lhTokenAt l

/-- The three alternatives of the filename time pattern
`(\d+)h(\d+)m|(\d+)h|(\d+)m(?!m)`. -/
inductive TimeTok where
  | hm (h m : ℕ)
  | hOnly (h : ℕ)
  | mOnly (m : ℕ)
deriving DecidableEq

/-- `(\d+)h(\d+)m|(\d+)h|(\d+)m(?!m)` (case-insensitive) at the current
position; `\d+` is greedy and exact here because a shorter run leaves a digit
where `h`/`m` is required. -/
def timeTokAt (l : List Char) : Option TimeTok :=
  let p := takeDigits l
  if p.1 = [] then none
  else
    let alt1 :=
      match p.2 with
      | c :: r2 =>
        if c.toLower == 'h' then
          let p2 := takeDigits r2
          if p2.1 = [] then none
          else
            match p2.2 with
            | m :: _ =>
              if m.toLower == 'm' then some (TimeTok.hm (digitsToNat p.1) (digitsToNat p2.1))
              else none
            | [] => none
        else none
      | [] => none
    match alt1 with
    | some v => some v
    | none =>
      let alt2 :=
        match p.2 with
        | c :: _ => if c.toLower == 'h' then some (TimeTok.hOnly (digitsToNat p.1)) else none
        | [] => none
      match alt2 with
      | some v => some v
      | none =>
        match p.2 with
        | c :: r2 =>
          if c.toLower == 'm' then
            match r2 with
            | y :: _ => if y.toLower == 'm' then none else some (TimeTok.mOnly (digitsToNat p.1))
            | [] => some (TimeTok.mOnly (digitsToNat p.1))
          else none
        | [] => none

/-- First match of the filename time pattern. -/
def matchTimeTok (l : List Char) : Option TimeTok :=
  scanFirst timeTokAt l

/-- Seconds computed from the matched time groups (the branch ladder on
`timeMatch[1..4]` of the source). -/
def timeTokSeconds : TimeTok → ℕ
  | TimeTok.hm h m => h * 3600 + m * 60
  | TimeTok.hOnly h => h * 3600
  | TimeTok.mOnly m => m * 60

/-- Slicer-embedded fields of `print_stats.info` (aliases read by the source). -/
structure SlicerInfo where
  current_layer : Option ℚ := none
  currentLayer : Option ℚ := none
  layer_current : Option ℚ := none
  layer : Option ℚ := none
  total_layer : Option ℚ := none
  totalLayer : Option ℚ := none
  layer_count : Option ℚ := none
  layerTotal : Option ℚ := none
  totalLayers : Option ℚ := none
  estimated_time : Option ℚ := none
  slicer_time : Option ℚ := none
  slicer_estimated_time : Option ℚ := none
  estimated_print_time : Option ℚ := none
  slicer_estimated_duration : Option ℚ := none
deriving DecidableEq

/-- `print_stats` of the consolidated telemetry. -/
structure PrintStats where
  state : String := ""
  filename : Option String := none
  print_duration : Option ℚ := none
  total_duration : Option ℚ := none
  info : Option SlicerInfo := none
deriving DecidableEq

/-- `display_status` of the consolidated telemetry. -/
structure DisplayStatus where
  progress : Option ℚ := none
deriving DecidableEq

/-- `virtual_sdcard` of the consolidated telemetry. -/
structure VirtualSdcard where
  progress : Option ℚ := none
deriving DecidableEq

/-- `extruder` / `heater_bed` reading of the consolidated telemetry. -/
structure HeaterState where
  temperature : ℚ
  target : ℚ
deriving DecidableEq

/-- `toolhead` of the consolidated telemetry. -/
structure Toolhead where
  position : List ℚ := []
deriving DecidableEq

/-- One consolidated telemetry snapshot (`data.result.status`). -/
structure Telemetry where
  print_stats : PrintStats
  display_status : DisplayStatus := {}
  virtual_sdcard : VirtualSdcard := {}
  extruder : Option HeaterState := none
  heater_bed : Option HeaterState := none
  toolhead : Option Toolhead := none
deriving DecidableEq

/-- Slicer metadata record (fields read by the source, any subset present). -/
structure SlicerMeta where
  layer_height : Option ℚ := none
  first_layer_height : Option ℚ := none
  layer_count : Option ℚ := none
  total_layer : Option ℚ := none
  total_layers : Option ℚ := none
  object_height : Option ℚ := none
  estimated_time : Option ℚ := none
  slicer_estimated_time : Option ℚ := none
  slicer_time : Option ℚ := none
  estimated_print_time : Option ℚ := none
  slicer_estimated_duration : Option ℚ := none
  print_time : Option ℚ := none
deriving DecidableEq

/-- The process-wide single-slot metadata cache. -/
structure MetadataCache where
  filename : Option String := none
  data : Option SlicerMeta := none
  source : Option String := none
deriving DecidableEq

/-- `{current, total}` pair of the layer estimators. -/
structure LayerPair where
  current : Option ℚ := none
  total : Option ℚ := none
deriving DecidableEq

/-- `{currentLayer, totalLayer}` result of `getLayerInfo`. -/
structure LayerChoice where
  currentLayer : Option ℚ := none
  totalLayer : Option ℚ := none
deriving DecidableEq

/-- A sensor reading object as consumed by `parseTempEntry`. -/
structure TempEntry where
  temperature : Option ℚ := none
  temp : Option ℚ := none
  current : Option ℚ := none
  temper : Option ℚ := none
  target : Option ℚ := none
  target_temp : Option ℚ := none
  target_temperature : Option ℚ := none
deriving DecidableEq

/-- Rounded `{current, target}` reading returned by `parseTempEntry`. -/
structure TempReading where
  current : ℤ
  target : ℤ
deriving DecidableEq

/-- The DOM fields written by the poll cycle (UI sink state). -/
structure UIState where
  status : String := ""
  statusClass : String := ""
  progressBarWidth : String := ""
  percentage : String := ""
  layerInfo : String := ""
  filename : String := ""
  timeEstimate : String := ""
  timeSlicer : String := ""
  timeTotal : String := ""
  hotendTemp : String := ""
  bedTemp : String := ""
  chamberTemp : String := ""
  chamberHidden : Bool := true
  thumbnailSrc : String := ""
  thumbnailDisplay : String := "none"
  thumbnailLoadedFor : String := ""
  thumbnailFilename : String := "--"
  cameraSrc : String := ""
deriving DecidableEq

/-- `parseTempEntry`: first non-nullish current alias. -/
def currentAlias (e : TempEntry) : Option ℚ :=
  jsNC e.temperature (jsNC e.temp (jsNC e.current e.temper))

/-- `parseTempEntry`: first non-nullish target alias. -/
def targetAlias (e : TempEntry) : Option ℚ :=
  jsNC e.target (jsNC e.target_temp e.target_temperature)

/-- `parseTempEntry` of the source: rounds the current alias, rounds the target
alias when present and otherwise falls back to `Math.round(entry.temperature ??
entry.temp ?? 0)`; null when no numeric current exists.  (On the modelled JSON
space `Number.isFinite` holds for every present number, so the finiteness
gates reduce to presence checks.) -/
def parseTempEntry (entry : Option TempEntry) : Option TempReading :=
  match entry with
  | none => none
  | some e =>
    match currentAlias e with
    | none => none
    | some c =>
      let tgt : ℤ :=
        match targetAlias e with
        | some t => jsRound t
        | none => jsRound ((jsNC e.temperature (jsNC e.temp (some 0))).getD 0)
      some { current := jsRound c, target := tgt }

/-- `formatLayerInfo` of the source; numbers are displayed with the integer
rendering JavaScript uses for whole values. -/
def numToDisplay (q : ℚ) : String :=
  if q.den = 1 then toString q.num else toString q

/-- `formatLayerInfo`: `--`, `c / t`, `c / --` or `-- / t` depending on which
values are known (strictly positive). -/
def formatLayerInfo (current total : Option ℚ) : String :=
  let hasCurrent := match current with | some q => decide (0 < q) | none => false
  let hasTotal := match total with | some q => decide (0 < q) | none => false
  if !hasCurrent && !hasTotal then "--"
  else if hasCurrent && hasTotal then
    numToDisplay (current.getD 0) ++ " / " ++ numToDisplay (total.getD 0)
  else if hasCurrent then numToDisplay (current.getD 0) ++ " / --"
  else "-- / " ++ numToDisplay (total.getD 0)

/-- `formatTime` of the source: `!seconds || seconds < 0` yields `--`, else a
floor decomposition into hours, minutes and seconds with the two-branch
rendering (there is no days unit: hours grow without bound). -/
def formatTime (seconds : Option ℚ) : String :=
  match seconds with
  | none => "--"
  | some q =>
    if q = 0 ∨ q < 0 then "--"
    else
      let hours := ⌊q / 3600⌋
      let minutes := ⌊qmod q 3600 / 60⌋
      let secs := ⌊qmod q 60⌋
      if 0 < hours then toString hours ++ "h " ++ toString minutes ++ "m"
      else if 0 < minutes then toString minutes ++ "m " ++ toString secs ++ "s"
      else toString secs ++ "s"

/-- `setTimeValue` of the source, as the string written to the element:
null/negative (non-finite cannot occur on the modelled space) gives `--`,
else `formatTime`. -/
def setTimeValueStr (seconds : Option ℚ) : String :=
  match seconds with
  | none => "--"
  | some q => if q < 0 then "--" else formatTime (some q)

/-- `computeRemainingFromProgress` of the source. -/
def computeRemainingFromProgress (progress printDuration : ℚ) : Option ℚ :=
  if 0 < progress ∧ progress < 1 then
    some (printDuration / progress - printDuration)
  else none

/-- The candidate loop of `getSlicerTotalSeconds`: first alias whose numeric
value is truthy and positive. -/
def firstPositive : List (Option ℚ) → Option ℚ
  | [] => none
  | v :: rest =>
    match asNumber v with
    | some q => if 0 < q then some q else firstPositive rest
    | none => firstPositive rest

/-- `getSlicerTotalSeconds` of the source: ordered metadata aliases, then
slicer-info aliases. -/
def getSlicerTotalSeconds (metadata : Option SlicerMeta) (slicerInfo : Option SlicerInfo) :
    Option ℚ :=
  firstPositive
    [metadata.bind (·.estimated_time),
     metadata.bind (·.slicer_estimated_time),
     metadata.bind (·.slicer_time),
     metadata.bind (·.estimated_print_time),
     metadata.bind (·.slicer_estimated_duration),
     metadata.bind (·.print_time),
     slicerInfo.bind (·.estimated_time),
     slicerInfo.bind (·.slicer_time),
     slicerInfo.bind (·.slicer_estimated_time),
     slicerInfo.bind (·.estimated_print_time),
     slicerInfo.bind (·.slicer_estimated_duration)]

/-- `getElapsedTime` of the source: `total_duration ?? print_duration ?? null`. -/
def getElapsedTime (printStats : PrintStats) : Option ℚ :=
  jsNC (asNumber printStats.total_duration) (jsNC (asNumber printStats.print_duration) none)

/-- `toolhead?.position?.[2]`. -/
def thZ (toolhead : Option Toolhead) : Option ℚ :=
  toolhead.bind (fun t => t.position.get? 2)

/-- `computeLayerFromMetadata` of the source. -/
def computeLayerFromMetadata (toolhead : Option Toolhead) (metadata : Option SlicerMeta) :
    LayerPair :=
  match metadata with
  | none => { current := none, total := none }
  | some md =>
    let layerHeight := md.layer_height
    let firstLayerHeight := jsOr md.first_layer_height layerHeight
    let objectHeight := md.object_height
    let layerCount := asNumber (jsNC md.layer_count (jsNC md.total_layer md.total_layers))
    let currentZ := thZ toolhead
    let total0 := jsOr layerCount none
    let total :=
      if ofalsy total0 && otruthy layerHeight && otruthy objectHeight then
        some ((max 1 (jsRound ((objectHeight.getD 0 - firstLayerHeight.getD 0) / layerHeight.getD 0 + 1)) : ℤ) : ℚ)
      else total0
    let current :=
      if otruthy layerHeight then
        match currentZ with
        | none => none
        | some z =>
          let fcalc := ⌊(z - firstLayerHeight.getD 0) / layerHeight.getD 0 + 1⌋
          let cur0 : ℚ := ((max 1 fcalc : ℤ) : ℚ)
          if otruthy total then some (min (total.getD 0) cur0) else some cur0
      else none
    { current := current, total := total }

/-- `computeLayerFromProgress` of the source. -/
def computeLayerFromProgress (displayStatus : Option DisplayStatus)
    (metadata : Option SlicerMeta) : LayerPair :=
  match metadata with
  | none => { current := none, total := none }
  | some md =>
    let total := asNumber (jsNC md.layer_count (jsNC md.total_layer md.total_layers))
    let progress := displayStatus.bind (·.progress)
    match progress with
    | none => { current := none, total := jsOr total none }
    | some p =>
      if ofalsy total ∨ p ≤ 0 then { current := none, total := jsOr total none }
      else
        let t := total.getD 0
        { current := some (max 1 (min t ((jsRound (p * t) : ℤ) : ℚ))), total := total }

/-- `firstNonNull` of the source, over the argument list. -/
def firstNonNull : List (Option ℚ) → Option ℚ
  | [] => none
  | v :: rest =>
    match v with
    | some x => some x
    | none => firstNonNull rest

/-- Slicer-reported current-layer extraction of `getLayerInfo`. -/
def slicerCurrentOf (slicerInfo : SlicerInfo) : Option ℚ :=
  asNumber (jsNC slicerInfo.current_layer
    (jsNC slicerInfo.currentLayer (jsNC slicerInfo.layer_current slicerInfo.layer)))

/-- Slicer-reported total-layer extraction of `getLayerInfo`. -/
def slicerTotalOf (slicerInfo : SlicerInfo) : Option ℚ :=
  asNumber (jsNC slicerInfo.total_layer
    (jsNC slicerInfo.totalLayer
      (jsNC slicerInfo.layer_count (jsNC slicerInfo.layerTotal slicerInfo.totalLayers))))

/-- `getLayerInfo` of the source (the global metadata cache content is passed
as the `mdata` argument). -/
def getLayerInfo (printStats : PrintStats) (displayStatus : Option DisplayStatus)
    (toolhead : Option Toolhead) (mdata : Option SlicerMeta) : LayerChoice :=
  let slicerInfo := printStats.info.getD {}
  let slicerCurrent := slicerCurrentOf slicerInfo
  let slicerTotal := slicerTotalOf slicerInfo
  let metadataLayer := computeLayerFromMetadata toolhead mdata
  let progressLayer := computeLayerFromProgress displayStatus mdata
  let currentZ := thZ toolhead
  let fallbackCurrent : Option ℚ :=
    match currentZ with
    | some z =>
      if 0 < z ∧ ofalsy metadataLayer.current then
        some ((max 1 ⌊z / (1/5 : ℚ)⌋ : ℤ) : ℚ)
      else none
    | none => none
  { currentLayer := firstNonNull [slicerCurrent, metadataLayer.current, progressLayer.current, fallbackCurrent],
    totalLayer := firstNonNull [slicerTotal, metadataLayer.total, progressLayer.total] }

/-- Split on `\n` (the separator of `/\r?\n/` before stripping the optional
carriage return). -/
def splitOnNl : List Char → List (List Char)
  | [] => [[]]
  | '\n' :: rest => [] :: splitOnNl rest
  | c :: rest =>
    match splitOnNl rest with
    | [] => [[c]]
    | h :: t => (c :: h) :: t

/-- Strip the single trailing `\r` consumed by the `/\r?\n/` separator. -/
def stripTrailingCR (l : List Char) : List Char :=
  match l.reverse with
  | '\r' :: t => t.reverse
  | _ => l

/-- `text.split(/\r?\n/)`. -/
def splitLinesJS (l : List Char) : List (List Char) :=
  (splitOnNl l).map stripTrailingCR

/-- `String.prototype.trim` (ASCII whitespace). -/
def trimChars (l : List Char) : List Char :=
  ((l.dropWhile (fun c => wsChar c)).reverse.dropWhile (fun c => wsChar c)).reverse

/-- Lowercase a line (`toLowerCase`, ASCII). -/
def toLowerL (l : List Char) : List Char := l.map Char.toLower

/-- One iteration of the comment-line scan of `parseGcodeHeader`: each field is
only filled when still unset (`meta.x = meta.x ?? numberFromLine(...)`). -/
def scanGcodeLine (meta : SlicerMeta) (rawLine : List Char) : SlicerMeta :=
  let line := trimChars rawLine
  if line.head? ≠ some ';' then meta
  else
    let lower := toLowerL line
    let lh := jsNC meta.layer_height (jsNC (scanFirst lhAt1 lower) (scanFirst lhAt2 lower))
    let flh := jsNC meta.first_layer_height
      (jsNC (scanFirst flhAt1 lower) (scanFirst flhAt2 lower))
    let lc := jsNC meta.layer_count
      (jsNC (scanFirst lcAt1 lower) (jsNC (scanFirst lcAt2 lower) (scanFirst lcAt3 lower)))
    let et := jsNC meta.estimated_time
      (jsNC (scanFirst etAt1 lower) (jsNC (scanFirst etAt2 lower) (scanFirst etAt3 lower)))
    let heightVal := scanFirst ohAt lower
    let oh :=
      match heightVal with
      | some _ => jsNC meta.object_height heightVal
      | none => meta.object_height
    { meta with layer_height := lh, first_layer_height := flh, layer_count := lc,
                estimated_time := et, object_height := oh }

/-- The scan of the first 500 lines plus the three derivation passes of
`parseGcodeHeader`, before the final all-unset check. -/
def gcodeScanMeta (text : List Char) : SlicerMeta :=
  let lines := (splitLinesJS text).take 500
  let meta0 := lines.foldl scanGcodeLine {}
  let meta1 :=
    if ofalsy meta0.object_height && otruthy meta0.layer_height && otruthy meta0.layer_count then
      { meta0 with object_height := some (meta0.layer_height.getD 0 * meta0.layer_count.getD 0) }
    else meta0
  let meta2 :=
    if otruthy meta1.object_height && ofalsy meta1.layer_height && ofalsy meta1.layer_count then
      match scanFirst secondaryLHAt text with
      | some h => { meta1 with layer_height := some h }
      | none => meta1
    else meta1
  if otruthy meta2.object_height && otruthy meta2.layer_height && ofalsy meta2.layer_count then
    let firstLayer := qOr meta2.first_layer_height (meta2.layer_height.getD 0)
    let lc : ℚ := ((max 1 (jsRound ((meta2.object_height.getD 0 - firstLayer) / meta2.layer_height.getD 0 + 1)) : ℤ) : ℚ)
    { meta2 with layer_count := some lc }
  else meta2

/-- `parseGcodeHeader` of the source: null on empty text, and null when the
final check `layer_height || first_layer_height || layer_count || object_height`
fails (note: `estimated_time` is not part of that check). -/
def parseGcodeHeaderL (text : List Char) : Option SlicerMeta :=
  if text = [] then none
  else
    let meta := gcodeScanMeta text
    if otruthy meta.layer_height || otruthy meta.first_layer_height ||
       otruthy meta.layer_count || otruthy meta.object_height then
      some meta
    else none

/-- `replace(/^pat/, repl)`: anchored-prefix replacement. -/
def replaceStart (pat repl s : List Char) : List Char :=
  if pat.isPrefixOf s then repl ++ s.drop pat.length else s

/-- `normalizeFilename` of the source, on character lists. -/
def normalizeFilenameL (filename : List Char) : Option (List Char) :=
  if filename = [] then none
  else
    let name :=
      replaceStart "files/".toList "".toList
        (replaceStart "gcode_files/".toList "gcodes/".toList
          (replaceStart "printer_data/gcodes/".toList "gcodes/".toList
            (replaceStart "/".toList "".toList
              (replaceStart "~/".toList "".toList filename))))
    some (if "gcodes/".toList.isPrefixOf name then name else "gcodes/".toList ++ name)

/-- `normalizeFilename` on the optional string the callers pass. -/
def normalizeFilename (filename : Option String) : Option String :=
  match filename with
  | none => none
  | some s => (normalizeFilenameL s.toList).map (fun l => String.mk l)

/-- `/\.gcode$/i` removal of `formatFilename`. -/
def stripGcodeExt (l : List Char) : List Char :=
  let low := toLowerL l
  if 6 ≤ low.length ∧ low.drop (low.length - 6) = ".gcode".toList then
    l.take (l.length - 6)
  else l

/-- Last `/`-separated segment (`split('/').pop()`). -/
def lastSegment (l : List Char) : List Char :=
  match (splitOnSlash l).getLast? with
  | some seg => seg
  | none => l
where
  splitOnSlash : List Char → List (List Char)
    | [] => [[]]
    | '/' :: rest => [] :: splitOnSlash rest
    | c :: rest =>
      match splitOnSlash rest with
      | [] => [[c]]
      | h :: t => (c :: h) :: t

/-- `formatFilename` of the source. -/
def formatFilename (filename : Option String) : Option String :=
  match filename with
  | none => none
  | some s =>
    if s = "" then none
    else some (String.mk (stripGcodeExt (lastSegment s.toList)))

/-- The filename layer-height backfill of `ensureMetadataLoaded` (range gate
0.05–0.5 inclusive, then the layer-count recalculation from `object_height`). -/
def backfillLayerHeight (filename : String) (d : SlicerMeta) : SlicerMeta :=
  if ofalsy d.layer_height then
    match matchLayerHeightToken filename.toList with
    | some h =>
      if 1/20 ≤ h ∧ h ≤ 1/2 then
        let d1 := { d with layer_height := some h }
        if otruthy d1.object_height && ofalsy d1.layer_count then
          let firstLayer := qOr d1.first_layer_height h
          let lc : ℚ := ((max 1 (jsRound ((d1.object_height.getD 0 - firstLayer) / h + 1)) : ℤ) : ℚ)
          { d1 with layer_count := some lc }
        else d1
      else d
    | none => d
  else d

/-- The filename estimated-time backfill of `ensureMetadataLoaded`. -/
def backfillEstimatedTime (filename : String) (d : SlicerMeta) : SlicerMeta :=
  if ofalsy d.estimated_time then
    match matchTimeTok filename.toList with
    | some tok =>
      let seconds := timeTokSeconds tok
      if 0 < seconds then { d with estimated_time := some (seconds : ℚ) } else d
    | none => d
  else d

/-- `ensureMetadataLoaded` of the source.  `fetchMeta` abstracts
`fetchMetadata` (API lookup then G-code header fallback) and reports how many
network calls it made; the guard paths perform none. -/
def ensureMetadataLoaded (fetchMeta : String → Option (SlicerMeta × String) × Nat)
    (cache : MetadataCache) (filename : Option String) (state : String) :
    MetadataCache × Nat :=
  if state ≠ "printing" ∨ strFalsy filename then (cache, 0)
  else if cache.filename = filename ∧ cache.data ≠ none then (cache, 0)
  else
    let fn := filename.getD ""
    let r := fetchMeta fn
    let data0 := r.1.map Prod.fst
    let source :=
      match r.1 with
      | some p => if p.2 = "" then none else some p.2
      | none => none
    let data2 := (data0.map (backfillLayerHeight fn)).map (backfillEstimatedTime fn)
    ({ filename := some fn, data := data2, source := source }, r.2)

/-- `state.charAt(0).toUpperCase() + state.slice(1)`. -/
def capitalize (s : String) : String :=
  match s.toList with
  | [] => ""
  | c :: rest => String.mk (c.toUpper :: rest)

/-- `hideThumbnail` of the source: clear the image, hide it, drop the
loaded-for marker and reset the filename label. -/
def hideThumbnailUI (ui : UIState) : UIState :=
  { ui with thumbnailSrc := "", thumbnailDisplay := "none",
            thumbnailLoadedFor := "", thumbnailFilename := "--" }

/-- `updateChamber` of the source, with the chamber reading passed in. -/
def updateChamberUI (temps : Option TempReading) (showChamber : Bool) (ui : UIState) : UIState :=
  match temps with
  | some t =>
    { ui with chamberHidden := false,
              chamberTemp := toString t.current ++ "°C / " ++ toString t.target ++ "°C" }
  | none =>
    if showChamber then { ui with chamberHidden := false, chamberTemp := "--" }
    else { ui with chamberHidden := true }

/-- `fetchPrintStatus` of the source, as a pure transition on the UI state and
the metadata cache.  The consolidated fetch result is the `telemetry` argument
(`Except.error` for a thrown top-level fetch); the asynchronous thumbnail load
of the printing branch is folded into the same transition through the
`thumbFetch` oracle. -/
def fetchPrintStatus (fetchMeta : String → Option (SlicerMeta × String) × Nat)
    (thumbFetch : String → Option String) (chamberTemps : Option TempReading)
    (showChamber : Bool) (telemetry : Except Unit Telemetry)
    (cache : MetadataCache) (ui : UIState) : UIState × MetadataCache :=
  match telemetry with
  | Except.error _ =>
    (hideThumbnailUI { ui with status := "Connection Error", statusClass := "status-pill error" },
     cache)
  | Except.ok t =>
    let printStats := t.print_stats
    let em := ensureMetadataLoaded fetchMeta cache printStats.filename printStats.state
    let cache1 := em.1
    let ui1 :=
      match t.extruder with
      | some e =>
        { ui with hotendTemp :=
            toString (jsRound e.temperature) ++ "°C / " ++ toString (jsRound e.target) ++ "°C" }
      | none => ui
    let ui2 :=
      match t.heater_bed with
      | some b =>
        { ui1 with bedTemp :=
            toString (jsRound b.temperature) ++ "°C / " ++ toString (jsRound b.target) ++ "°C" }
      | none => ui1
    let ui3 := updateChamberUI chamberTemps showChamber ui2
    let state := printStats.state
    let ui4 := { ui3 with status := capitalize state }
    if state = "printing" then
      let rawProgress := jsNC t.virtual_sdcard.progress (jsNC t.display_status.progress (some 0))
      let progress := max 0 (min 1 (rawProgress.getD 0))
      let percentage := jsRound (progress * 100)
      let li := getLayerInfo printStats (some t.display_status) t.toolhead cache1.data
      let printDuration := qOr printStats.print_duration 0
      let estimateRemaining := computeRemainingFromProgress progress printDuration
      let slicerTotal := getSlicerTotalSeconds cache1.data printStats.info
      let slicerRemaining :=
        match slicerTotal with
        | some st => some (max 0 (st - printDuration))
        | none => none
      let elapsedTime := getElapsedTime printStats
      let ui5 :=
        { ui4 with statusClass := "status-pill ok",
                   progressBarWidth := toString percentage ++ "%",
                   percentage := toString percentage ++ "%",
                   layerInfo := formatLayerInfo li.currentLayer li.totalLayer,
                   timeEstimate := setTimeValueStr estimateRemaining,
                   timeSlicer := setTimeValueStr slicerRemaining,
                   timeTotal := setTimeValueStr elapsedTime,
                   filename := strOr (formatFilename printStats.filename) "Unknown" }
      let ui6 :=
        match normalizeFilename printStats.filename with
        | some normalized =>
          if ui5.thumbnailLoadedFor ≠ normalized then
            match thumbFetch normalized with
            | some b64 =>
              if 100 < b64.length then
                { ui5 with thumbnailLoadedFor := normalized,
                           thumbnailSrc := "data:image/png;base64," ++ b64,
                           thumbnailDisplay := "block",
                           thumbnailFilename := strOr printStats.filename "--" }
              else hideThumbnailUI { ui5 with thumbnailLoadedFor := normalized }
            | none => hideThumbnailUI { ui5 with thumbnailLoadedFor := normalized }
          else ui5
        | none => ui5
      (ui6, cache1)
    else if state = "paused" then
      let slicerTotal := getSlicerTotalSeconds cache1.data printStats.info
      (hideThumbnailUI
        { ui4 with statusClass := "status-pill idle",
                   layerInfo := "--",
                   timeEstimate := setTimeValueStr none,
                   timeSlicer := setTimeValueStr slicerTotal,
                   timeTotal := setTimeValueStr (getElapsedTime printStats) },
       cache1)
    else
      let slicerTotal := getSlicerTotalSeconds cache1.data printStats.info
      (hideThumbnailUI
        { ui4 with statusClass := "status-pill idle",
                   progressBarWidth := "0%",
                   percentage := "0%",
                   timeEstimate := setTimeValueStr none,
                   timeSlicer := setTimeValueStr slicerTotal,
                   timeTotal := setTimeValueStr none,
                   layerInfo := "--",
                   filename := "--" },
       cache1)

/-- Claim-side (C3) selection of the current layer, following the spec's
wording: first non-null of the slicer-reported aliases, the metadata/Z-geometry
estimate, the progress-ratio estimate, and the `max(1, floor(Z/0.2))` last
resort computed only when `Z > 0` and no metadata-derived current exists. -/
def claimCurrentLayer (printStats : PrintStats) (displayStatus : Option DisplayStatus)
    (toolhead : Option Toolhead) (mdata : Option SlicerMeta) : Option ℚ :=
  let lastResort : Option ℚ :=
    match thZ toolhead with
    | some z =>
      if 0 < z ∧ (computeLayerFromMetadata toolhead mdata).current = none then
        some ((max 1 ⌊z / (1/5 : ℚ)⌋ : ℤ) : ℚ)
      else none
    | none => none
  firstNonNull
    [slicerCurrentOf (printStats.info.getD {}),
     (computeLayerFromMetadata toolhead mdata).current,
     (computeLayerFromProgress displayStatus mdata).current,
     lastResort]

/-- Claim-side (C3) selection of the total layer: first non-null of the
slicer-reported total aliases, the metadata-derived total, and the
progress-derived total; the Z-height last resort never supplies a total. -/
def claimTotalLayer (printStats : PrintStats) (displayStatus : Option DisplayStatus)
    (toolhead : Option Toolhead) (mdata : Option SlicerMeta) : Option ℚ :=
  firstNonNull
    [slicerTotalOf (printStats.info.getD {}),
     (computeLayerFromMetadata toolhead mdata).total,
     (computeLayerFromProgress displayStatus mdata).total]

/-- Claim-side (C8) formatter, following the spec's wording: integer-floor
decomposition into days/hours/minutes/seconds, rendering only the two most
significant non-zero units. -/
def claimFormatTime (seconds : ℚ) : String :=
  let days := ⌊seconds / 86400⌋
  let hours := ⌊qmod seconds 86400 / 3600⌋
  let minutes := ⌊qmod seconds 3600 / 60⌋
  let secs := ⌊qmod seconds 60⌋
  let units := [(days, "d"), (hours, "h"), (minutes, "m"), (secs, "s")].filter
    (fun p => p.1 ≠ 0)
  match units.take 2 with
  | [] => "0s"
  | [u] => toString u.1 ++ u.2
  | u :: v :: _ => toString u.1 ++ u.2 ++ " " ++ toString v.1 ++ v.2

/-- Substring test used to state that an error message does not mention the
printer address. -/
def containsSub (needle hay : List Char) : Bool :=
  (scanFirst (fun l => (dropLit needle l).map (fun _ => ())) hay).isSome

/-- A sample pre-existing UI state used by concrete counterexamples: a cycle
that was showing a half-finished print. -/
def uiSample : UIState :=
  { status := "Printing", statusClass := "status-pill ok",
    progressBarWidth := "50%", percentage := "50%",
    layerInfo := "10 / 20", filename := "benchy",
    timeEstimate := "1h 0m", timeSlicer := "2h 0m", timeTotal := "30m 0s",
    hotendTemp := "200°C / 210°C", bedTemp := "60°C / 60°C",
    chamberTemp := "35°C / 0°C", chamberHidden := false,
    thumbnailSrc := "data:image/png;base64,xyz", thumbnailDisplay := "block",
    thumbnailLoadedFor := "gcodes/benchy.gcode", thumbnailFilename := "benchy.gcode",
    cameraSrc := "http://192.168.1.50/webcam/?action=stream" }

/-- A warm metadata cache holding a slicer estimate, used by concrete inputs. -/
def cacheSample : MetadataCache :=
  { filename := some "benchy.gcode",
    data := some { estimated_time := some 3600 },
    source := some "api" }

/-- An idle telemetry snapshot used by concrete inputs. -/
def idleTelemetry : Telemetry :=
  { print_stats := { state := "idle" } }

theorem otruthy_eq_true_iff (v : Option ℚ) : otruthy v = true ↔ ∃ q, v = some q ∧ q ≠ 0 := by
  cases v <;> simp [otruthy]

theorem ofalsy_eq_true_iff (v : Option ℚ) : ofalsy v = true ↔ v = none ∨ v = some 0 := by
  cases v with
  | none => simp [ofalsy, otruthy]
  | some q =>
    by_cases hq : q = 0 <;> simp [ofalsy, otruthy, hq]

theorem isPrefixOf_self_append (p x : List Char) : p.isPrefixOf (p ++ x) = true := by
  induction p with
  | nil => simp
  | cons c r ih => simp [List.isPrefixOf_cons₂, ih]

theorem normalizeFilenameL_gcodes_fixed (u : List Char) :
    normalizeFilenameL ('g' :: 'c' :: 'o' :: 'd' :: 'e' :: 's' :: '/' :: u) =
      some ('g' :: 'c' :: 'o' :: 'd' :: 'e' :: 's' :: '/' :: u) := by
  simp [normalizeFilenameL, replaceStart, List.isPrefixOf_cons₂, List.isPrefixOf]

/-- C10: the filename normalizer returns null exactly on null/empty input; on
every non-empty input the result starts with `gcodes/`, and the normalizer is
idempotent on those results. -/
theorem c10_normalize_filename :
    normalizeFilename none = none ∧ normalizeFilenameL [] = none ∧
    ∀ l : List Char, l ≠ [] →
      ∃ r, normalizeFilenameL l = some r ∧ "gcodes/".toList.isPrefixOf r = true ∧
        normalizeFilenameL r = some r := by
  refine ⟨rfl, rfl, ?_⟩
  intro l hl
  have hg : "gcodes/".toList = ['g', 'c', 'o', 'd', 'e', 's', '/'] := rfl
  simp only [normalizeFilenameL, if_neg hl]
  set name := replaceStart "files/".toList "".toList
    (replaceStart "gcode_files/".toList "gcodes/".toList
      (replaceStart "printer_data/gcodes/".toList "gcodes/".toList
        (replaceStart "/".toList "".toList
          (replaceStart "~/".toList "".toList l)))) with hname
  by_cases h : "gcodes/".toList.isPrefixOf name = true
  · refine ⟨name, ?_, h, ?_⟩
    · rw [if_pos h]
    · have hpre : "gcodes/".toList <+: name := List.isPrefixOf_iff_prefix.mp h
      obtain ⟨u, hu⟩ := hpre
      rw [← hu, hg]
      exact normalizeFilenameL_gcodes_fixed u
  · rw [if_neg h]
    refine ⟨"gcodes/".toList ++ name, rfl, isPrefixOf_self_append _ _, ?_⟩
    rw [hg]
    exact normalizeFilenameL_gcodes_fixed name

/-- Closed instance of the C10 theorem at a concrete filename. -/
theorem c10_witness :
    ∃ r, normalizeFilenameL "benchy.gcode".toList = some r ∧
      "gcodes/".toList.isPrefixOf r = true ∧ normalizeFilenameL r = some r :=
  c10_normalize_filename.2.2 "benchy.gcode".toList (by decide)

theorem ensureMetadataLoaded_hit
    (fetchMeta : String → Option (SlicerMeta × String) × Nat) (cache : MetadataCache)
    (filename : Option String) (state : String)
    (h : state ≠ "printing" ∨ strFalsy filename ∨ (cache.filename = filename ∧ cache.data ≠ none)) :
    ensureMetadataLoaded fetchMeta cache filename state = (cache, 0) := by
  unfold ensureMetadataLoaded
  rcases h with h | h | h
  · rw [if_pos (Or.inl h)]
  · rw [if_pos (Or.inr h)]
  · by_cases h1 : state ≠ "printing" ∨ strFalsy filename
    · rw [if_pos h1]
    · rw [if_neg h1, if_pos h]

/-- C4: the metadata resolver is a no-op (zero network calls, cache slot
unchanged) whenever the state is not `printing`, the filename is falsy, or the
cache already holds non-null data for the requested filename; in particular
two successive calls against a warm cache perform zero network calls in
total. -/
theorem c4_metadata_cache_idempotent :
    (∀ (fetchMeta : String → Option (SlicerMeta × String) × Nat) (cache : MetadataCache)
      (filename : Option String) (state : String),
      state ≠ "printing" ∨ strFalsy filename ∨ (cache.filename = filename ∧ cache.data ≠ none) →
      ensureMetadataLoaded fetchMeta cache filename state = (cache, 0)) ∧
    (∀ (fetchMeta : String → Option (SlicerMeta × String) × Nat) (cache : MetadataCache)
      (fn : String), cache.filename = some fn → cache.data ≠ none →
      (ensureMetadataLoaded fetchMeta cache (some fn) "printing").2 = 0 ∧
      ensureMetadataLoaded fetchMeta
          (ensureMetadataLoaded fetchMeta cache (some fn) "printing").1 (some fn) "printing"
        = (cache, 0)) := by
  refine ⟨fun f c fn st h => ensureMetadataLoaded_hit f c fn st h, ?_⟩
  intro f c fn h1 h2
  have hfirst : ensureMetadataLoaded f c (some fn) "printing" = (c, 0) :=
    ensureMetadataLoaded_hit f c (some fn) "printing" (Or.inr (Or.inr ⟨h1, h2⟩))
  rw [hfirst]
  exact ⟨rfl, ensureMetadataLoaded_hit f c (some fn) "printing" (Or.inr (Or.inr ⟨h1, h2⟩))⟩

/-- Closed instance of the C4 theorem at a warm cache. -/
theorem c4_witness :
    ensureMetadataLoaded (fun _ => (none, 5)) cacheSample (some "benchy.gcode") "printing"
      = (cacheSample, 0) :=
  c4_metadata_cache_idempotent.1 (fun _ => (none, 5)) cacheSample (some "benchy.gcode") "printing"
    (Or.inr (Or.inr ⟨by decide, by decide⟩))

theorem min_branch_ne_zero (T : Option ℚ) (F : ℤ) (q : ℚ)
    (hq : (if otruthy T then some (min (T.getD 0) ((max 1 F : ℤ) : ℚ))
           else some ((max 1 F : ℤ) : ℚ)) = some q) : q ≠ 0 := by
  have hc1 : (1 : ℚ) ≤ ((max 1 F : ℤ) : ℚ) := by exact_mod_cast le_max_left 1 F
  split at hq
  · rename_i h2
    obtain ⟨tq, hT, htqne⟩ := (otruthy_eq_true_iff T).mp h2
    simp only [Option.some.injEq] at hq
    intro h0
    rw [h0, hT] at hq
    simp only [Option.getD_some] at hq
    rcases min_cases tq ((max 1 F : ℤ) : ℚ) with ⟨he, _⟩ | ⟨he, _⟩
    · rw [he] at hq
      exact htqne hq
    · rw [he] at hq
      rw [hq] at hc1
      linarith
  · simp only [Option.some.injEq] at hq
    intro h0
    rw [h0] at hq
    rw [hq] at hc1
    linarith

theorem computeLayerFromMetadata_current_ne_zero (toolhead : Option Toolhead)
    (metadata : Option SlicerMeta) (q : ℚ)
    (hq : (computeLayerFromMetadata toolhead metadata).current = some q) : q ≠ 0 := by
  cases metadata with
  | none => simp [computeLayerFromMetadata] at hq
  | some md =>
    simp only [computeLayerFromMetadata] at hq
    split at hq
    · split at hq
      · simp at hq
      · exact min_branch_ne_zero _ _ q hq
    · simp at hq

/-- C3: for every telemetry snapshot and cached metadata, `getLayerInfo` picks
`currentLayer` as the first non-null of slicer-reported aliases, the
metadata/Z-geometry estimate, the progress-ratio estimate, and the
`max(1, floor(Z/0.2))` last resort (computed only when `Z > 0` and no
metadata-derived current exists), and `totalLayer` as the first non-null of the
slicer-reported, metadata-derived, and progress-derived totals, with the
Z-height fallback never supplying a total. -/
theorem c3_layer_selection (ps : PrintStats) (ds : Option DisplayStatus)
    (th : Option Toolhead) (md : Option SlicerMeta) :
    getLayerInfo ps ds th md =
      { currentLayer := claimCurrentLayer ps ds th md,
        totalLayer := claimTotalLayer ps ds th md } := by
  have hcur : (ofalsy ((computeLayerFromMetadata th md).current) = true) ↔
      ((computeLayerFromMetadata th md).current = none) := by
    rw [ofalsy_eq_true_iff]
    constructor
    · rintro (h | h)
      · exact h
      · exact absurd rfl (computeLayerFromMetadata_current_ne_zero th md 0 h)
    · exact fun h => Or.inl h
  unfold getLayerInfo claimCurrentLayer claimTotalLayer
  simp only [← hcur]

/-- Closed instance of the C3 theorem at a concrete snapshot. -/
theorem c3_witness :
    getLayerInfo { state := "printing" } none (some { position := [0, 0, 2] })
        (some { layer_height := some (1/5), object_height := some 10 }) =
      { currentLayer :=
          claimCurrentLayer { state := "printing" } none (some { position := [0, 0, 2] })
            (some { layer_height := some (1/5), object_height := some 10 }),
        totalLayer :=
          claimTotalLayer { state := "printing" } none (some { position := [0, 0, 2] })
            (some { layer_height := some (1/5), object_height := some 10 }) } :=
  c3_layer_selection _ _ _ _

/-- C5 (amended): the header parser returns a record exactly when the text is
non-empty and at least one of layer height, first-layer height, layer count, or
object height is truthy after the scan and derivation passes; an extracted
`estimated_time` alone does not make the result non-null. -/
theorem c5_parse_null_iff (text : List Char) :
    (parseGcodeHeaderL text).isSome = true ↔
      (text ≠ [] ∧
        (otruthy (gcodeScanMeta text).layer_height = true ∨
         otruthy (gcodeScanMeta text).first_layer_height = true ∨
         otruthy (gcodeScanMeta text).layer_count = true ∨
         otruthy (gcodeScanMeta text).object_height = true)) := by
  unfold parseGcodeHeaderL
  by_cases ht : text = []
  · simp [ht]
  · rw [if_neg ht]
    by_cases hc : (otruthy (gcodeScanMeta text).layer_height ||
        otruthy (gcodeScanMeta text).first_layer_height ||
        otruthy (gcodeScanMeta text).layer_count ||
        otruthy (gcodeScanMeta text).object_height) = true
    · rw [if_pos hc]
      simp only [Option.isSome_some, true_iff]
      refine ⟨ht, ?_⟩
      simpa [Bool.or_eq_true, or_assoc] using hc
    · rw [if_neg hc]
      simp only [Option.isSome_none]
      constructor
      · intro h
        exact absurd h (by simp)
      · rintro ⟨-, h⟩
        exact absurd (by simpa [Bool.or_eq_true, or_assoc] using h) hc

/-- Closed instance of the C5 theorem at a concrete header text. -/
theorem c5_witness :
    (parseGcodeHeaderL "; layer_height: 0.2".toList).isSome = true ↔
      ("; layer_height: 0.2".toList ≠ [] ∧
        (otruthy (gcodeScanMeta "; layer_height: 0.2".toList).layer_height = true ∨
         otruthy (gcodeScanMeta "; layer_height: 0.2".toList).first_layer_height = true ∨
         otruthy (gcodeScanMeta "; layer_height: 0.2".toList).layer_count = true ∨
         otruthy (gcodeScanMeta "; layer_height: 0.2".toList).object_height = true)) :=
  c5_parse_null_iff _

/-- C5 counterexample to the claim as stated: a header containing only an
estimated time is parsed (the field is extracted) yet the parser returns
null. -/
theorem c5_counterexample :
    parseGcodeHeaderL "; estimated_time: 100".toList = none ∧
    (gcodeScanMeta "; estimated_time: 100".toList).estimated_time = some 100 := by
  constructor
  · rfl
  · rfl

unseal Rat.mul Rat.add Rat.sub Rat.inv in
/-- C6: the layer-height backfill infers the height from the filename through
the separator/`mm`-bounded decimal pattern, accepting only values in the
inclusive range 0.05–0.5: `benchy_0.2mm_PLA.gcode` yields 0.2,
`test_0.15_ABS.gcode` yields 0.15, and the matched 0.6 of
`benchy_0.6mm_PLA.gcode` is rejected. -/
theorem c6_filename_layer_height :
    (backfillLayerHeight "benchy_0.2mm_PLA.gcode" {}).layer_height = some (1/5) ∧
    (backfillLayerHeight "test_0.15_ABS.gcode" {}).layer_height = some (3/20) ∧
    matchLayerHeightToken "benchy_0.6mm_PLA.gcode".toList = some (3/5) ∧
    (backfillLayerHeight "benchy_0.6mm_PLA.gcode" {}).layer_height = none ∧
    ∀ (fn : String) (d : SlicerMeta), d.layer_height = none →
      ∀ h, (backfillLayerHeight fn d).layer_height = some h → 1/20 ≤ h ∧ h ≤ 1/2 := by
  refine ⟨by decide, by decide, by decide, by decide, ?_⟩
  intro fn d hd h hh
  unfold backfillLayerHeight at hh
  rw [hd] at hh
  split at hh
  · split at hh
    · rename_i v hv
      split at hh
      · rename_i hrange
        simp only [] at hh
        split at hh
        · simp only [Option.some.injEq] at hh
          exact hh ▸ hrange
        · simp only [Option.some.injEq] at hh
          exact hh ▸ hrange
      · rw [hd] at hh
        cases hh
    · rw [hd] at hh
      cases hh
  · rename_i hfalse
    exact absurd rfl hfalse

unseal Rat.mul Rat.add Rat.sub Rat.inv in
/-- Closed instance of the C6 range property at the inferred 0.2 value. -/
theorem c6_witness : 1/20 ≤ (1/5 : ℚ) ∧ (1/5 : ℚ) ≤ 1/2 :=
  c6_filename_layer_height.2.2.2.2 "benchy_0.2mm_PLA.gcode" {} rfl (1/5) (by decide)

unseal Rat.mul Rat.add Rat.sub Rat.inv in
/-- C7: the estimated-time backfill infers seconds from the filename patterns
`{d}h{m}m`, `{h}h` and `{m}m` (the latter not followed by a second `m`):
`print_1h46m_part.gcode` gives 6360 s, `print_45m_part.gcode` gives 2700 s,
`print_2h_part.gcode` gives 7200 s, and an `mm` token such as in
`benchy_0.2mm_PLA.gcode` is not matched. -/
theorem c7_filename_time :
    matchTimeTok "print_1h46m_part.gcode".toList = some (TimeTok.hm 1 46) ∧
    (backfillEstimatedTime "print_1h46m_part.gcode" {}).estimated_time = some 6360 ∧
    (backfillEstimatedTime "print_45m_part.gcode" {}).estimated_time = some 2700 ∧
    (backfillEstimatedTime "print_2h_part.gcode" {}).estimated_time = some 7200 ∧
    matchTimeTok "benchy_0.2mm_PLA.gcode".toList = none ∧
    (backfillEstimatedTime "benchy_0.2mm_PLA.gcode" {}).estimated_time = none := by
  refine ⟨by decide, by decide, by decide, by decide, by decide, by decide⟩

unseal Rat.mul Rat.add Rat.sub Rat.inv in
/-- C8 (amended): the display pipeline maps null, negative and zero second
counts to `--`; every positive count is decomposed by integer floor into
hours/minutes/seconds (hours unbounded, no days unit), rendering `Hh Mm` when
hours are positive, else `Mm Ss` when minutes are positive, else `Ss`;
formatting 9000 gives `2h 30m` and 45 gives `45s`. -/
theorem c8_format_time_amended :
    formatTime none = "--" ∧
    setTimeValueStr none = "--" ∧
    (∀ q : ℚ, q ≤ 0 → formatTime (some q) = "--") ∧
    (∀ q : ℚ, 0 < q →
      formatTime (some q) =
        (if 0 < ⌊q / 3600⌋ then toString ⌊q / 3600⌋ ++ "h " ++ toString ⌊qmod q 3600 / 60⌋ ++ "m"
         else if 0 < ⌊qmod q 3600 / 60⌋ then
           toString ⌊qmod q 3600 / 60⌋ ++ "m " ++ toString ⌊qmod q 60⌋ ++ "s"
         else toString ⌊qmod q 60⌋ ++ "s")) ∧
    formatTime (some 9000) = "2h 30m" ∧ formatTime (some 45) = "45s" := by
  refine ⟨rfl, rfl, ?_, ?_, by decide, by decide⟩
  · intro q hq
    have hc : q = 0 ∨ q < 0 := by
      rcases lt_or_eq_of_le hq with h | h
      · exact Or.inr h
      · exact Or.inl h
    simp only [formatTime, if_pos hc]
  · intro q hq
    have hng : ¬(q = 0 ∨ q < 0) := by
      rintro (rfl | h)
      · exact lt_irrefl 0 hq
      · linarith
    simp only [formatTime, if_neg hng]

/-- Closed instance of the C8 theorem at a negative input. -/
theorem c8_witness : formatTime (some (-5)) = "--" :=
  c8_format_time_amended.2.2.1 (-5) (by norm_num)

unseal Rat.mul Rat.add Rat.sub Rat.inv in
/-- C8 counterexample to the claim as stated: 90000 seconds is a non-negative
finite count, but the formatter has no days unit and renders `25h 0m` (also
showing a zero minutes unit), not the `1d 1h` the claimed
days/hours/minutes/seconds two-unit decomposition produces. -/
theorem c8_counterexample :
    formatTime (some 90000) = "25h 0m" ∧ claimFormatTime 90000 = "1d 1h" ∧
    formatTime (some 90000) ≠ claimFormatTime 90000 := by
  refine ⟨by decide, by decide, by decide⟩

theorem jsNC_extend (a b c : Option ℚ) (q : ℚ) (h : jsNC a b = some q) :
    jsNC a (jsNC b c) = some q := by
  cases a with
  | some v => simpa [jsNC] using h
  | none =>
    simp only [jsNC] at h ⊢
    rw [h]

/-- C9 (amended): the temperature-entry parser accepts the stated current and
target aliases in source order; it returns null exactly when no current alias
is present; a present target alias is rounded and returned; when every target
alias is absent the target falls back to `Math.round(temperature ?? temp ?? 0)`
— which equals the returned current only when the current itself came from the
`temperature`/`temp` aliases, and is 0 when it came from `current`/`temper`. -/
theorem c9_temp_entry_amended :
    parseTempEntry none = none ∧
    (∀ e : TempEntry, parseTempEntry (some e) = none ↔ currentAlias e = none) ∧
    (∀ (e : TempEntry) (q t : ℚ), currentAlias e = some q → targetAlias e = some t →
      parseTempEntry (some e) = some { current := jsRound q, target := jsRound t }) ∧
    (∀ (e : TempEntry) (q : ℚ), currentAlias e = some q → targetAlias e = none →
      parseTempEntry (some e) =
        some { current := jsRound q,
               target := jsRound ((jsNC e.temperature (jsNC e.temp (some 0))).getD 0) }) ∧
    (∀ (e : TempEntry) (q : ℚ), jsNC e.temperature e.temp = some q → targetAlias e = none →
      (parseTempEntry (some e)).map (·.target) = (parseTempEntry (some e)).map (·.current)) := by
  refine ⟨rfl, ?_, ?_, ?_, ?_⟩
  · intro e
    cases hc : currentAlias e with
    | none => simp [parseTempEntry, hc]
    | some q => simp [parseTempEntry, hc]
  · intro e q t hc ht
    simp [parseTempEntry, hc, ht]
  · intro e q hc ht
    simp [parseTempEntry, hc, ht]
  · intro e q hq ht
    have hc : currentAlias e = some q := jsNC_extend _ _ _ _ hq
    have hfb : jsNC e.temperature (jsNC e.temp (some 0)) = some q := jsNC_extend _ _ _ _ hq
    simp [parseTempEntry, hc, ht, hfb]

/-- Closed instance of the C9 theorem at a concrete reading. -/
theorem c9_witness :
    parseTempEntry (some { temperature := some 50, target := some 60 }) =
      some { current := jsRound 50, target := jsRound 60 } :=
  c9_temp_entry_amended.2.2.1 { temperature := some 50, target := some 60 } 50 60 rfl rfl

unseal Rat.mul Rat.add Rat.sub Rat.inv in
/-- C9 counterexample to the claim as stated: a reading whose current comes
from the `current` alias and whose target aliases are absent yields target 0,
not the returned current (50). -/
theorem c9_counterexample :
    parseTempEntry (some { current := some 50 }) = some { current := 50, target := 0 } ∧
    ((parseTempEntry (some { current := some 50 })).map (fun r => r.target) ≠
      (parseTempEntry (some { current := some 50 })).map (fun r => r.current)) := by
  refine ⟨by decide, by decide⟩

/-- C1 (amended): when the top-level telemetry fetch throws, the cycle sets
the status indicator to the fixed text `Connection Error` (no target address)
with the error pill class and hides the thumbnail; progress, layer, all three
time displays, temperatures, chamber, camera and the metadata cache keep their
previous values — no progress/layer/time reset occurs. -/
theorem c1_connection_error
    (fetchMeta : String → Option (SlicerMeta × String) × Nat)
    (thumbFetch : String → Option String) (chamberTemps : Option TempReading)
    (showChamber : Bool) (cache : MetadataCache) (ui : UIState) :
    let r := fetchPrintStatus fetchMeta thumbFetch chamberTemps showChamber
      (Except.error ()) cache ui
    r.1.status = "Connection Error" ∧ r.1.statusClass = "status-pill error" ∧
    r.1.thumbnailSrc = "" ∧ r.1.thumbnailDisplay = "none" ∧
    r.1.thumbnailLoadedFor = "" ∧ r.1.thumbnailFilename = "--" ∧
    r.1.progressBarWidth = ui.progressBarWidth ∧ r.1.percentage = ui.percentage ∧
    r.1.layerInfo = ui.layerInfo ∧ r.1.filename = ui.filename ∧
    r.1.timeEstimate = ui.timeEstimate ∧ r.1.timeSlicer = ui.timeSlicer ∧
    r.1.timeTotal = ui.timeTotal ∧ r.1.hotendTemp = ui.hotendTemp ∧
    r.1.bedTemp = ui.bedTemp ∧ r.1.chamberTemp = ui.chamberTemp ∧
    r.1.chamberHidden = ui.chamberHidden ∧ r.1.cameraSrc = ui.cameraSrc ∧
    r.2 = cache :=
  ⟨rfl, rfl, rfl, rfl, rfl, rfl, rfl, rfl, rfl, rfl, rfl, rfl, rfl, rfl, rfl, rfl,
   rfl, rfl, rfl⟩

/-- Closed instance of the C1 theorem at concrete inputs. -/
theorem c1_witness :
    let r := fetchPrintStatus (fun _ => (none, 0)) (fun _ => none) none false
      (Except.error ()) cacheSample uiSample
    r.1.status = "Connection Error" ∧ r.1.statusClass = "status-pill error" ∧
    r.1.thumbnailSrc = "" ∧ r.1.thumbnailDisplay = "none" ∧
    r.1.thumbnailLoadedFor = "" ∧ r.1.thumbnailFilename = "--" ∧
    r.1.progressBarWidth = uiSample.progressBarWidth ∧ r.1.percentage = uiSample.percentage ∧
    r.1.layerInfo = uiSample.layerInfo ∧ r.1.filename = uiSample.filename ∧
    r.1.timeEstimate = uiSample.timeEstimate ∧ r.1.timeSlicer = uiSample.timeSlicer ∧
    r.1.timeTotal = uiSample.timeTotal ∧ r.1.hotendTemp = uiSample.hotendTemp ∧
    r.1.bedTemp = uiSample.bedTemp ∧ r.1.chamberTemp = uiSample.chamberTemp ∧
    r.1.chamberHidden = uiSample.chamberHidden ∧ r.1.cameraSrc = uiSample.cameraSrc ∧
    r.2 = cacheSample :=
  c1_connection_error (fun _ => (none, 0)) (fun _ => none) none false cacheSample uiSample

/-- C1 counterexample to the claim as stated: on a thrown telemetry fetch the
status is the fixed `Connection Error` text, which does not mention the target
address (`192.168.1.50` here), and the progress and time fields are left at
their previous values instead of being reset. -/
theorem c1_counterexample :
    let r := fetchPrintStatus (fun _ => (none, 0)) (fun _ => none) none false
      (Except.error ()) cacheSample uiSample
    r.1.status = "Connection Error" ∧
    containsSub "192.168.1.50".toList r.1.status.toList = false ∧
    r.1.percentage = "50%" ∧ r.1.percentage ≠ "0%" ∧
    r.1.timeEstimate = "1h 0m" ∧ r.1.timeEstimate ≠ "--" := by
  refine ⟨rfl, by decide, rfl, by decide, rfl, by decide⟩

/-- C2 (amended): for every poll whose telemetry state is neither `printing`
nor `paused`, the cycle clears progress to 0%, clears the layer display and
the filename to `--`, hides the thumbnail, resets the progress-based remaining
and elapsed time displays to `--`, leaves the metadata cache unchanged — but
the slicer-remaining display is not unconditionally reset: it shows the first
positive slicer total found in the cached metadata or the telemetry's slicer
info, and is `--` only when no such positive total exists. -/
theorem c2_idle_reset
    (fetchMeta : String → Option (SlicerMeta × String) × Nat)
    (thumbFetch : String → Option String) (chamberTemps : Option TempReading)
    (showChamber : Bool) (t : Telemetry) (cache : MetadataCache) (ui : UIState)
    (h1 : t.print_stats.state ≠ "printing") (h2 : t.print_stats.state ≠ "paused") :
    let r := fetchPrintStatus fetchMeta thumbFetch chamberTemps showChamber
      (Except.ok t) cache ui
    r.1.progressBarWidth = "0%" ∧ r.1.percentage = "0%" ∧ r.1.layerInfo = "--" ∧
    r.1.filename = "--" ∧ r.1.timeEstimate = "--" ∧ r.1.timeTotal = "--" ∧
    r.1.timeSlicer = setTimeValueStr (getSlicerTotalSeconds cache.data t.print_stats.info) ∧
    r.1.thumbnailSrc = "" ∧ r.1.thumbnailDisplay = "none" ∧
    r.1.thumbnailLoadedFor = "" ∧ r.1.thumbnailFilename = "--" ∧
    r.2 = cache := by
  have hm : ensureMetadataLoaded fetchMeta cache t.print_stats.filename t.print_stats.state
      = (cache, 0) :=
    ensureMetadataLoaded_hit fetchMeta cache t.print_stats.filename t.print_stats.state
      (Or.inl h1)
  simp only [fetchPrintStatus, hm, if_neg h1, if_neg h2, hideThumbnailUI]
  and_intros <;> trivial

/-- Closed instance of the C2 theorem at a concrete idle snapshot. -/
theorem c2_witness :
    let r := fetchPrintStatus (fun _ => (none, 0)) (fun _ => none) none false
      (Except.ok idleTelemetry) cacheSample uiSample
    r.1.progressBarWidth = "0%" ∧ r.1.percentage = "0%" ∧ r.1.layerInfo = "--" ∧
    r.1.filename = "--" ∧ r.1.timeEstimate = "--" ∧ r.1.timeTotal = "--" ∧
    r.1.timeSlicer =
      setTimeValueStr (getSlicerTotalSeconds cacheSample.data idleTelemetry.print_stats.info) ∧
    r.1.thumbnailSrc = "" ∧ r.1.thumbnailDisplay = "none" ∧
    r.1.thumbnailLoadedFor = "" ∧ r.1.thumbnailFilename = "--" ∧
    r.2 = cacheSample :=
  c2_idle_reset (fun _ => (none, 0)) (fun _ => none) none false idleTelemetry
    cacheSample uiSample (by decide) (by decide)

unseal Rat.mul Rat.add Rat.sub Rat.inv in
/-- C2 counterexample to the claim as stated: on an idle poll with a warm
metadata cache holding a one-hour slicer estimate, the slicer-remaining
display shows `1h 0m` instead of being reset to `--`. -/
theorem c2_counterexample :
    (fetchPrintStatus (fun _ => (none, 0)) (fun _ => none) none false
        (Except.ok idleTelemetry) cacheSample uiSample).1.timeSlicer = "1h 0m" ∧
    (fetchPrintStatus (fun _ => (none, 0)) (fun _ => none) none false
        (Except.ok idleTelemetry) cacheSample uiSample).1.timeSlicer ≠ "--" := by
  refine ⟨by decide, by decide⟩
